import Mathlib

/-!
Shallow embedding of `src/renderers.rs` from the `pixels` repository.

The file models the wgpu 0.4 descriptor types used by `Renderer::factory`
and the commands recorded by `Renderer::render_pass` as plain Lean data.
Device and encoder operations are captured as an explicit trace of
`ApiCall` values, so that "what got created" and "what got recorded into
the render pass" are first-class objects the theorems can speak about.
GPU handles (`Device`, `Queue`, `TextureView`) carry no behaviour in the
source beyond identity, so they are modelled as natural-number handles.
-/

/-- Handle for `Rc<wgpu::Device>` (the `Device` alias of `render_pass.rs`). -/
abbrev Device := Nat

/-- Handle for the `Queue` alias of `render_pass.rs` (unused by the code). -/
abbrev Queue := Nat

/-- Handle for `wgpu::TextureView`. -/
abbrev TextureView := Nat

/-- wgpu::AddressMode. -/
inductive AddressMode
  | ClampToEdge
  | Repeat
  | MirrorRepeat
deriving DecidableEq, Inhabited

/-- wgpu::FilterMode. -/
inductive FilterMode
  | Nearest
  | Linear
deriving DecidableEq, Inhabited

/-- wgpu::CompareFunction. -/
inductive CompareFunction
  | Never
  | Less
  | Equal
  | LessEqual
  | Greater
  | NotEqual
  | GreaterEqual
  | Always
deriving DecidableEq, Inhabited

/-- wgpu::SamplerDescriptor.  The two lod clamps are the f32 constants
0.0 and 1.0, both exactly representable, modelled as rationals. -/
structure SamplerDescriptor where
  address_mode_u : AddressMode
  address_mode_v : AddressMode
  address_mode_w : AddressMode
  mag_filter : FilterMode
  min_filter : FilterMode
  mipmap_filter : FilterMode
  lod_min_clamp : Rat
  lod_max_clamp : Rat
  compare_function : CompareFunction
deriving DecidableEq, Inhabited

/-- wgpu::Sampler: the handle returned by `create_sampler`, carrying its
descriptor. -/
structure Sampler where
  desc : SamplerDescriptor
deriving DecidableEq, Inhabited

/-- wgpu::TextureViewDimension. -/
inductive TextureViewDimension
  | D1
  | D2
  | D2Array
  | Cube
  | CubeArray
  | D3
deriving DecidableEq, Inhabited

/-- wgpu::ShaderStage is a bitflag set; modelled as the underlying word. -/
abbrev ShaderStage := Nat

/-- wgpu::ShaderStage::FRAGMENT. -/
def ShaderStage.FRAGMENT : ShaderStage := 2

/-- wgpu::BindingType. -/
inductive BindingType
  | SampledTexture (multisampled : Bool) (dimension : TextureViewDimension)
  | Sampler
  | UniformBuffer
  | StorageBuffer
deriving DecidableEq, Inhabited

/-- wgpu::BindGroupLayoutBinding. -/
structure BindGroupLayoutBinding where
  binding : Nat
  visibility : ShaderStage
  ty : BindingType
deriving DecidableEq, Inhabited

/-- wgpu::BindGroupLayoutDescriptor. -/
structure BindGroupLayoutDescriptor where
  bindings : List BindGroupLayoutBinding
deriving DecidableEq, Inhabited

/-- wgpu::BindGroupLayout, carrying its descriptor. -/
structure BindGroupLayout where
  desc : BindGroupLayoutDescriptor
deriving DecidableEq, Inhabited

/-- wgpu::BindingResource. -/
inductive BindingResource
  | TextureView (view : TextureView)
  | Sampler (sampler : Sampler)
deriving DecidableEq, Inhabited

/-- wgpu::Binding. -/
structure Binding where
  binding : Nat
  resource : BindingResource
deriving DecidableEq, Inhabited

/-- wgpu::BindGroupDescriptor. -/
structure BindGroupDescriptor where
  layout : BindGroupLayout
  bindings : List Binding
deriving DecidableEq, Inhabited

/-- wgpu::BindGroup, carrying its descriptor. -/
structure BindGroup where
  desc : BindGroupDescriptor
deriving DecidableEq, Inhabited

/-- wgpu::PipelineLayoutDescriptor. -/
structure PipelineLayoutDescriptor where
  bind_group_layouts : List BindGroupLayout
deriving DecidableEq, Inhabited

/-- wgpu::PipelineLayout, carrying its descriptor. -/
structure PipelineLayout where
  desc : PipelineLayoutDescriptor
deriving DecidableEq, Inhabited

/-- wgpu::ShaderModule: the decoded SPIR-V words handed to
`create_shader_module`. -/
structure ShaderModule where
  words : List Nat
deriving DecidableEq, Inhabited

/-- wgpu::ProgrammableStageDescriptor. -/
structure ProgrammableStageDescriptor where
  module : ShaderModule
  entry_point : String
deriving DecidableEq, Inhabited

/-- wgpu::FrontFace. -/
inductive FrontFace
  | Ccw
  | Cw
deriving DecidableEq, Inhabited

/-- wgpu::CullMode. -/
inductive CullMode
  | None
  | Front
  | Back
deriving DecidableEq, Inhabited

/-- wgpu::RasterizationStateDescriptor.  The f32 fields hold the exact
constants 0.0 in the source; modelled as rationals. -/
structure RasterizationStateDescriptor where
  front_face : FrontFace
  cull_mode : CullMode
  depth_bias : Int
  depth_bias_slope_scale : Rat
  depth_bias_clamp : Rat
deriving DecidableEq, Inhabited

/-- wgpu::PrimitiveTopology. -/
inductive PrimitiveTopology
  | PointList
  | LineList
  | LineStrip
  | TriangleList
  | TriangleStrip
deriving DecidableEq, Inhabited

/-- wgpu::TextureFormat (the variants relevant to this file). -/
inductive TextureFormat
  | Bgra8UnormSrgb
  | Rgba8UnormSrgb
  | Depth32Float
deriving DecidableEq, Inhabited

/-- wgpu::BlendFactor. -/
inductive BlendFactor
  | Zero
  | One
  | SrcAlpha
  | OneMinusSrcAlpha
deriving DecidableEq, Inhabited

/-- wgpu::BlendOperation. -/
inductive BlendOperation
  | Add
  | Subtract
  | ReverseSubtract
  | Min
  | Max
deriving DecidableEq, Inhabited

/-- wgpu::BlendDescriptor. -/
structure BlendDescriptor where
  src_factor : BlendFactor
  dst_factor : BlendFactor
  operation : BlendOperation
deriving DecidableEq, Inhabited

/-- wgpu::BlendDescriptor::REPLACE: source replaces destination. -/
def BlendDescriptor.REPLACE : BlendDescriptor :=
  { src_factor := BlendFactor.One
    dst_factor := BlendFactor.Zero
    operation := BlendOperation.Add }

/-- wgpu::ColorWrite is a bitflag set; modelled as the underlying word
(RED = 1, GREEN = 2, BLUE = 4, ALPHA = 8). -/
abbrev ColorWrite := Nat

/-- wgpu::ColorWrite::ALL = RED | GREEN | BLUE | ALPHA. -/
def ColorWrite.ALL : ColorWrite := 15

/-- wgpu::ColorStateDescriptor. -/
structure ColorStateDescriptor where
  format : TextureFormat
  color_blend : BlendDescriptor
  alpha_blend : BlendDescriptor
  write_mask : ColorWrite
deriving DecidableEq, Inhabited

/-- wgpu::DepthStencilStateDescriptor (only ever absent in this file). -/
structure DepthStencilStateDescriptor where
  format : TextureFormat
  depth_write_enabled : Bool
  depth_compare : CompareFunction
deriving DecidableEq, Inhabited

/-- wgpu::IndexFormat. -/
inductive IndexFormat
  | Uint16
  | Uint32
deriving DecidableEq, Inhabited

/-- wgpu::VertexBufferDescriptor (only ever the empty slice in this file). -/
structure VertexBufferDescriptor where
  stride : Nat
deriving DecidableEq, Inhabited

/-- wgpu::RenderPipelineDescriptor, with every field of the source call. -/
structure RenderPipelineDescriptor where
  layout : PipelineLayout
  vertex_stage : ProgrammableStageDescriptor
  fragment_stage : Option ProgrammableStageDescriptor
  rasterization_state : Option RasterizationStateDescriptor
  primitive_topology : PrimitiveTopology
  color_states : List ColorStateDescriptor
  depth_stencil_state : Option DepthStencilStateDescriptor
  index_format : IndexFormat
  vertex_buffers : List VertexBufferDescriptor
  sample_count : Nat
  sample_mask : Nat
  alpha_to_coverage_enabled : Bool
deriving DecidableEq, Inhabited

/-- wgpu::RenderPipeline, carrying its descriptor. -/
structure RenderPipeline where
  desc : RenderPipelineDescriptor
deriving DecidableEq, Inhabited

/-- wgpu::Color (f64 channels; the only constant used is BLACK, exact). -/
structure Color where
  r : Rat
  g : Rat
  b : Rat
  a : Rat
deriving DecidableEq, Inhabited

/-- wgpu::Color::BLACK. -/
def Color.BLACK : Color := { r := 0, g := 0, b := 0, a := 1 }

/-- wgpu::LoadOp. -/
inductive LoadOp
  | Clear
  | Load
deriving DecidableEq, Inhabited

/-- wgpu::StoreOp. -/
inductive StoreOp
  | Clear
  | Store
deriving DecidableEq, Inhabited

/-- wgpu::RenderPassColorAttachmentDescriptor. -/
structure RenderPassColorAttachmentDescriptor where
  attachment : TextureView
  resolve_target : Option TextureView
  load_op : LoadOp
  store_op : StoreOp
  clear_color : Color
deriving DecidableEq, Inhabited

/-- wgpu::RenderPassDepthStencilAttachmentDescriptor (only ever absent). -/
structure RenderPassDepthStencilAttachmentDescriptor where
  attachment : TextureView
deriving DecidableEq, Inhabited

/-- wgpu::RenderPassDescriptor. -/
structure RenderPassDescriptor where
  color_attachments : List RenderPassColorAttachmentDescriptor
  depth_stencil_attachment : Option RenderPassDepthStencilAttachmentDescriptor
deriving DecidableEq, Inhabited

/-- One call into the wgpu API, as issued by `factory` (device calls) or
recorded by `render_pass` (encoder / pass commands). -/
inductive ApiCall
  | create_shader_module (words : List Nat)
  | create_sampler (desc : SamplerDescriptor)
  | create_bind_group_layout (desc : BindGroupLayoutDescriptor)
  | create_bind_group (desc : BindGroupDescriptor)
  | create_pipeline_layout (desc : PipelineLayoutDescriptor)
  | create_render_pipeline (desc : RenderPipelineDescriptor)
  | begin_render_pass (desc : RenderPassDescriptor)
  | set_pipeline (pipeline : RenderPipeline)
  | set_bind_group (index : Nat) (group : BindGroup) (offsets : List Nat)
  | draw (vertex_start : Nat) (vertex_end : Nat) (instance_start : Nat) (instance_end : Nat)
deriving DecidableEq, Inhabited

/-- True exactly on the device-side resource-creation calls. -/
def ApiCall.isCreate : ApiCall → Bool
  | ApiCall.create_shader_module _ => true
  | ApiCall.create_sampler _ => true
  | ApiCall.create_bind_group_layout _ => true
  | ApiCall.create_bind_group _ => true
  | ApiCall.create_pipeline_layout _ => true
  | ApiCall.create_render_pipeline _ => true
  | _ => false

/-- True exactly on draw calls. -/
def ApiCall.isDraw : ApiCall → Bool
  | ApiCall.draw _ _ _ _ => true
  | _ => false

/-- wgpu::CommandEncoder, modelled as the list of calls recorded so far. -/
structure CommandEncoder where
  calls : List ApiCall
deriving DecidableEq, Inhabited

/-- byteorder LittleEndian::read_u32_into: reads `dstLen` little-endian
32-bit words out of `src`.  The Rust function panics unless
`src.len() == 4 * dst.len()`; the panic is modelled as `none`. -/
def read_u32_into (src : List Nat) (dstLen : Nat) : Option (List Nat) :=
  if src.length = 4 * dstLen then
    some ((List.range dstLen).map (fun i =>
      src.getD (4 * i) 0 + 2 ^ 8 * src.getD (4 * i + 1) 0 +
        2 ^ 16 * src.getD (4 * i + 2) 0 + 2 ^ 24 * src.getD (4 * i + 3) 0))
  else
    none

/-- The decoding step of `factory`: size the destination to
`bytes.len() / size_of::<u32>()` words, then `read_u32_into`. -/
def decode_spv (bytes : List Nat) : Option (List Nat) :=
  read_u32_into bytes (bytes.length / 4)

/-- The `Renderer` struct: `device: Rc<wgpu::Device>`,
`bind_group: wgpu::BindGroup`, `render_pipeline: wgpu::RenderPipeline`. -/
structure Renderer where
  device : Device
  bind_group : BindGroup
  render_pipeline : RenderPipeline
deriving DecidableEq, Inhabited

/-- The `wgpu::SamplerDescriptor` literal passed to `create_sampler` in
`factory` (a `let`-bound value of the source, lifted to a named def). -/
def factorySamplerDesc : SamplerDescriptor :=
  { address_mode_u := AddressMode.ClampToEdge
    address_mode_v := AddressMode.ClampToEdge
    address_mode_w := AddressMode.ClampToEdge
    mag_filter := FilterMode.Nearest
    min_filter := FilterMode.Nearest
    mipmap_filter := FilterMode.Nearest
    lod_min_clamp := 0
    lod_max_clamp := 1
    compare_function := CompareFunction.Always }

/-- The `wgpu::BindGroupLayoutDescriptor` literal of `factory`. -/
def factoryBindGroupLayoutDesc : BindGroupLayoutDescriptor :=
  { bindings :=
      [ { binding := 0
          visibility := ShaderStage.FRAGMENT
          ty := BindingType.SampledTexture false TextureViewDimension.D2 },
        { binding := 1
          visibility := ShaderStage.FRAGMENT
          ty := BindingType.Sampler } ] }

/-- The `wgpu::BindGroupDescriptor` literal of `factory`: binding 0 is the
`texture_view` argument, binding 1 the sampler just created. -/
def factoryBindGroupDesc (texture_view : TextureView) : BindGroupDescriptor :=
  { layout := { desc := factoryBindGroupLayoutDesc }
    bindings :=
      [ { binding := 0, resource := BindingResource.TextureView texture_view },
        { binding := 1, resource := BindingResource.Sampler { desc := factorySamplerDesc } } ] }

/-- The `wgpu::PipelineLayoutDescriptor` literal of `factory`. -/
def factoryPipelineLayoutDesc : PipelineLayoutDescriptor :=
  { bind_group_layouts := [{ desc := factoryBindGroupLayoutDesc }] }

/-- The `wgpu::RenderPipelineDescriptor` literal of `factory`, over the
decoded vertex and fragment shader words. -/
def factoryPipelineDesc (vert frag : List Nat) : RenderPipelineDescriptor :=
  { layout := { desc := factoryPipelineLayoutDesc }
    vertex_stage := { module := { words := vert }, entry_point := "main" }
    fragment_stage := some { module := { words := frag }, entry_point := "main" }
    rasterization_state := some
      { front_face := FrontFace.Ccw
        cull_mode := CullMode.None
        depth_bias := 0
        depth_bias_slope_scale := 0
        depth_bias_clamp := 0 }
    primitive_topology := PrimitiveTopology.TriangleList
    color_states :=
      [ { format := TextureFormat.Bgra8UnormSrgb
          color_blend := BlendDescriptor.REPLACE
          alpha_blend := BlendDescriptor.REPLACE
          write_mask := ColorWrite.ALL } ]
    depth_stencil_state := none
    index_format := IndexFormat.Uint16
    vertex_buffers := []
    sample_count := 1
    sample_mask := 2 ^ 32 - 1
    alpha_to_coverage_enabled := false }

/-- The trace of device calls `factory` issues, in source order. -/
def factoryTrace (vert frag : List Nat) (texture_view : TextureView) : List ApiCall :=
  [ ApiCall.create_shader_module vert,
    ApiCall.create_shader_module frag,
    ApiCall.create_sampler factorySamplerDesc,
    ApiCall.create_bind_group_layout factoryBindGroupLayoutDesc,
    ApiCall.create_bind_group (factoryBindGroupDesc texture_view),
    ApiCall.create_pipeline_layout factoryPipelineLayoutDesc,
    ApiCall.create_render_pipeline (factoryPipelineDesc vert frag) ]

/-- Renderer::factory.  The two byte lists stand for the
`include_bytes!("../shaders/vert.spv")` and
`include_bytes!("../shaders/frag.spv")` constants; the `shaders/`
directory is not part of the excerpt, so the embedded bytes are taken as
parameters.  The result pairs the produced `Renderer` with the trace of
device calls the function issued; `none` models the `read_u32_into`
panic on a byte length that is not a whole number of 32-bit words. -/
def Renderer.factory (vert_spv frag_spv : List Nat) (device : Device)
    (_queue : Queue) (texture_view : TextureView) :
    Option (Renderer × List ApiCall) := do
  let vert ← decode_spv vert_spv
  let frag ← decode_spv frag_spv
  some
    ( { device := device
        bind_group := { desc := factoryBindGroupDesc texture_view }
        render_pipeline := { desc := factoryPipelineDesc vert frag } },
      factoryTrace vert frag texture_view )

/-- Renderer::update_bindings: the body is empty, so the receiver (taken
by `&mut self` in Rust) comes back unchanged. -/
def Renderer.update_bindings (self : Renderer) (_input_texture : TextureView) :
    Renderer :=
  self

/-- Renderer::render_pass.  `self` is a shared borrow and `encoder` a
mutable borrow in Rust, so the model returns the (unchanged) renderer
together with the encoder extended by the recorded calls. -/
def Renderer.render_pass (self : Renderer) (encoder : CommandEncoder)
    (render_target : TextureView) : Renderer × CommandEncoder :=
  let pass_desc : RenderPassDescriptor :=
    { color_attachments :=
        [ { attachment := render_target
            resolve_target := none
            load_op := LoadOp.Clear
            store_op := StoreOp.Store
            clear_color := Color.BLACK } ]
      depth_stencil_attachment := none }
  ( self,
    { calls := encoder.calls ++
        [ ApiCall.begin_render_pass pass_desc,
          ApiCall.set_pipeline self.render_pipeline,
          ApiCall.set_bind_group 0 self.bind_group [],
          ApiCall.draw 0 6 0 1 ] } )

/-! Helper lemmas shared by the claim theorems. -/

/-- Shape of a successful `factory` call: the result is fully determined
by the decoded shader words, the device and the texture view. -/
theorem factory_eq_some_iff (v f : List Nat) (d : Device) (q : Queue)
    (tv : TextureView) (r : Renderer) (tr : List ApiCall) :
    Renderer.factory v f d q tv = some (r, tr) ↔
      ∃ vert frag, decode_spv v = some vert ∧ decode_spv f = some frag ∧
        r = { device := d
              bind_group := { desc := factoryBindGroupDesc tv }
              render_pipeline := { desc := factoryPipelineDesc vert frag } } ∧
        tr = factoryTrace vert frag tv := by
  cases hv : decode_spv v with
  | none => simp [Renderer.factory, hv]
  | some vert =>
    cases hf : decode_spv f with
    | none => simp [Renderer.factory, hv, hf]
    | some frag =>
      simp [Renderer.factory, hv, hf]
      constructor
      · rintro ⟨h1, h2⟩
        exact ⟨h1.symm, h2.symm⟩
      · rintro ⟨h1, h2⟩
        exact ⟨h1.symm, h2.symm⟩

/-- Decoding succeeds exactly on byte streams that are a whole number of
32-bit words. -/
theorem decode_spv_isSome_iff (bytes : List Nat) :
    (decode_spv bytes).isSome = true ↔ bytes.length % 4 = 0 := by
  unfold decode_spv read_u32_into
  constructor
  · intro h
    by_cases hc : bytes.length = 4 * (bytes.length / 4)
    · omega
    · simp [hc] at h
  · intro h
    have hc : bytes.length = 4 * (bytes.length / 4) := by omega
    simp [← hc]

/-- A concrete renderer produced by `factory` on empty shader byte
streams, used by the witness theorems. -/
def sampleRenderer : Renderer :=
  { device := 0
    bind_group := { desc := factoryBindGroupDesc 0 }
    render_pipeline := { desc := factoryPipelineDesc [] [] } }

/-- The device-call trace matching `sampleRenderer`. -/
def sampleTrace : List ApiCall := factoryTrace [] [] 0

/-- Evaluation of `factory` on the concrete witness inputs. -/
theorem factory_sample_eq :
    Renderer.factory [] [] 0 0 0 = some (sampleRenderer, sampleTrace) := rfl

/-! Claim theorems. -/

/-- C1: every `render_pass` call records exactly one draw call into the
begun render pass, covering vertex range 0..6 and instance range 0..1,
and the pipeline it binds (the one `factory` built) uses triangle-list
topology with no vertex buffers. -/
theorem render_pass_records_one_draw_of_six_vertices
    (v f : List Nat) (d : Device) (q : Queue) (tv : TextureView)
    (r : Renderer) (tr : List ApiCall)
    (h : Renderer.factory v f d q tv = some (r, tr))
    (enc : CommandEncoder) (target : TextureView) :
    ∃ recorded,
      ((Renderer.render_pass r enc target).2).calls = enc.calls ++ recorded ∧
      recorded.filter ApiCall.isDraw = [ApiCall.draw 0 6 0 1] ∧
      ApiCall.set_pipeline r.render_pipeline ∈ recorded ∧
      r.render_pipeline.desc.primitive_topology = PrimitiveTopology.TriangleList ∧
      r.render_pipeline.desc.vertex_buffers = [] := by
  obtain ⟨vert, frag, hv, hf, hr, htr⟩ := (factory_eq_some_iff v f d q tv r tr).mp h
  subst hr
  exact ⟨_, rfl, rfl, by simp [Renderer.render_pass], rfl, rfl⟩

/-- Witness for C1 at concrete inputs. -/
theorem render_pass_records_one_draw_of_six_vertices_witness :
    ∃ recorded,
      ((Renderer.render_pass sampleRenderer { calls := [] } 3).2).calls =
        [] ++ recorded ∧
      recorded.filter ApiCall.isDraw = [ApiCall.draw 0 6 0 1] ∧
      ApiCall.set_pipeline sampleRenderer.render_pipeline ∈ recorded ∧
      sampleRenderer.render_pipeline.desc.primitive_topology =
        PrimitiveTopology.TriangleList ∧
      sampleRenderer.render_pipeline.desc.vertex_buffers = [] :=
  render_pass_records_one_draw_of_six_vertices [] [] 0 0 0 sampleRenderer
    sampleTrace rfl { calls := [] } 3

/-- C2: the resource at binding 1 of the bind group built by `factory`
is a sampler whose mag, min and mipmap filters are all
`FilterMode::Nearest`. -/
theorem factory_sampler_is_nearest
    (v f : List Nat) (d : Device) (q : Queue) (tv : TextureView)
    (r : Renderer) (tr : List ApiCall)
    (h : Renderer.factory v f d q tv = some (r, tr)) :
    ∃ s : Sampler,
      r.bind_group.desc.bindings.filter (fun b => b.binding == 1) =
        [{ binding := 1, resource := BindingResource.Sampler s }] ∧
      s.desc.mag_filter = FilterMode.Nearest ∧
      s.desc.min_filter = FilterMode.Nearest ∧
      s.desc.mipmap_filter = FilterMode.Nearest := by
  obtain ⟨vert, frag, hv, hf, hr, htr⟩ := (factory_eq_some_iff v f d q tv r tr).mp h
  subst hr
  exact ⟨{ desc := factorySamplerDesc }, rfl, rfl, rfl, rfl⟩

/-- Witness for C2 at concrete inputs. -/
theorem factory_sampler_is_nearest_witness :
    ∃ s : Sampler,
      sampleRenderer.bind_group.desc.bindings.filter (fun b => b.binding == 1) =
        [{ binding := 1, resource := BindingResource.Sampler s }] ∧
      s.desc.mag_filter = FilterMode.Nearest ∧
      s.desc.min_filter = FilterMode.Nearest ∧
      s.desc.mipmap_filter = FilterMode.Nearest :=
  factory_sampler_is_nearest [] [] 0 0 0 sampleRenderer sampleTrace rfl

/-- C3: the pipeline built by `factory` has a single color state, whose
color and alpha blending are both `BlendDescriptor::REPLACE` and whose
write mask is `ColorWrite::ALL`, and no depth/stencil state. -/
theorem factory_pipeline_draws_unmodified
    (v f : List Nat) (d : Device) (q : Queue) (tv : TextureView)
    (r : Renderer) (tr : List ApiCall)
    (h : Renderer.factory v f d q tv = some (r, tr)) :
    ∃ cs : ColorStateDescriptor,
      r.render_pipeline.desc.color_states = [cs] ∧
      cs.color_blend = BlendDescriptor.REPLACE ∧
      cs.alpha_blend = BlendDescriptor.REPLACE ∧
      cs.write_mask = ColorWrite.ALL ∧
      r.render_pipeline.desc.depth_stencil_state = none := by
  obtain ⟨vert, frag, hv, hf, hr, htr⟩ := (factory_eq_some_iff v f d q tv r tr).mp h
  subst hr
  exact ⟨_, rfl, rfl, rfl, rfl, rfl⟩

/-- Witness for C3 at concrete inputs. -/
theorem factory_pipeline_draws_unmodified_witness :
    ∃ cs : ColorStateDescriptor,
      sampleRenderer.render_pipeline.desc.color_states = [cs] ∧
      cs.color_blend = BlendDescriptor.REPLACE ∧
      cs.alpha_blend = BlendDescriptor.REPLACE ∧
      cs.write_mask = ColorWrite.ALL ∧
      sampleRenderer.render_pipeline.desc.depth_stencil_state = none :=
  factory_pipeline_draws_unmodified [] [] 0 0 0 sampleRenderer sampleTrace rfl

/-- C4: `factory` creates the pipeline state exactly once (two shader
modules, one sampler, one bind group, one render pipeline in its device
trace), and every `render_pass` call creates nothing: it leaves the
renderer unchanged and only binds the stored pipeline and bind group
before drawing. -/
theorem pipeline_state_constructed_once
    (v f : List Nat) (d : Device) (q : Queue) (tv : TextureView)
    (r : Renderer) (tr : List ApiCall)
    (h : Renderer.factory v f d q tv = some (r, tr)) :
    (tr.countP (fun c => match c with
        | ApiCall.create_sampler _ => true | _ => false) = 1 ∧
      tr.countP (fun c => match c with
        | ApiCall.create_bind_group _ => true | _ => false) = 1 ∧
      tr.countP (fun c => match c with
        | ApiCall.create_render_pipeline _ => true | _ => false) = 1 ∧
      tr.countP (fun c => match c with
        | ApiCall.create_shader_module _ => true | _ => false) = 2) ∧
    ∀ enc target,
      (Renderer.render_pass r enc target).1 = r ∧
      ∃ recorded,
        ((Renderer.render_pass r enc target).2).calls = enc.calls ++ recorded ∧
        recorded.filter ApiCall.isCreate = [] ∧
        ApiCall.set_pipeline r.render_pipeline ∈ recorded ∧
        ApiCall.set_bind_group 0 r.bind_group [] ∈ recorded := by
  obtain ⟨vert, frag, hv, hf, hr, htr⟩ := (factory_eq_some_iff v f d q tv r tr).mp h
  subst hr
  subst htr
  refine ⟨⟨rfl, rfl, rfl, rfl⟩, fun enc target => ⟨rfl, _, rfl, rfl, ?_, ?_⟩⟩ <;>
    simp [Renderer.render_pass]

/-- Witness for C4 at concrete inputs. -/
theorem pipeline_state_constructed_once_witness :
    (sampleTrace.countP (fun c => match c with
        | ApiCall.create_sampler _ => true | _ => false) = 1 ∧
      sampleTrace.countP (fun c => match c with
        | ApiCall.create_bind_group _ => true | _ => false) = 1 ∧
      sampleTrace.countP (fun c => match c with
        | ApiCall.create_render_pipeline _ => true | _ => false) = 1 ∧
      sampleTrace.countP (fun c => match c with
        | ApiCall.create_shader_module _ => true | _ => false) = 2) ∧
    ∀ enc target,
      (Renderer.render_pass sampleRenderer enc target).1 = sampleRenderer ∧
      ∃ recorded,
        ((Renderer.render_pass sampleRenderer enc target).2).calls =
          enc.calls ++ recorded ∧
        recorded.filter ApiCall.isCreate = [] ∧
        ApiCall.set_pipeline sampleRenderer.render_pipeline ∈ recorded ∧
        ApiCall.set_bind_group 0 sampleRenderer.bind_group [] ∈ recorded :=
  pipeline_state_constructed_once [] [] 0 0 0 sampleRenderer sampleTrace rfl

/-- C5: no failure path of its own: whenever the embedded shader byte
streams are whole sequences of 32-bit words (as SPIR-V modules are),
`factory` succeeds; `render_pass` is total by construction. -/
theorem factory_never_fails_on_word_aligned_shaders
    (v f : List Nat) (d : Device) (q : Queue) (tv : TextureView)
    (hv : v.length % 4 = 0) (hf : f.length % 4 = 0) :
    (Renderer.factory v f d q tv).isSome = true := by
  obtain ⟨vert, hvert⟩ := Option.isSome_iff_exists.mp ((decode_spv_isSome_iff v).mpr hv)
  obtain ⟨frag, hfrag⟩ := Option.isSome_iff_exists.mp ((decode_spv_isSome_iff f).mpr hf)
  simp [Renderer.factory, hvert, hfrag]

/-- Witness for C5 at concrete inputs. -/
theorem factory_never_fails_on_word_aligned_shaders_witness :
    (Renderer.factory [0, 0, 0, 0] [] 1 2 3).isSome = true :=
  factory_never_fails_on_word_aligned_shaders [0, 0, 0, 0] [] 1 2 3
    (by decide) (by decide)

/-- C6: each `render_pass` call begins exactly one pass whose sole color
attachment is the render target with store op Store and no resolve
target, with no depth/stencil attachment, and the bind group it binds
carries the factory texture view at binding 0 as its only input. -/
theorem render_pass_single_input_single_output
    (v f : List Nat) (d : Device) (q : Queue) (tv : TextureView)
    (r : Renderer) (tr : List ApiCall)
    (h : Renderer.factory v f d q tv = some (r, tr))
    (enc : CommandEncoder) (target : TextureView) :
    ∃ recorded att,
      ((Renderer.render_pass r enc target).2).calls = enc.calls ++ recorded ∧
      recorded.filter (fun c => match c with
          | ApiCall.begin_render_pass _ => true | _ => false) =
        [ApiCall.begin_render_pass
          { color_attachments := [att], depth_stencil_attachment := none }] ∧
      att.attachment = target ∧
      att.resolve_target = none ∧
      att.store_op = StoreOp.Store ∧
      ApiCall.set_bind_group 0 r.bind_group [] ∈ recorded ∧
      r.bind_group.desc.bindings.filter (fun b => b.binding == 0) =
        [{ binding := 0, resource := BindingResource.TextureView tv }] := by
  obtain ⟨vert, frag, hv, hf, hr, htr⟩ := (factory_eq_some_iff v f d q tv r tr).mp h
  subst hr
  exact ⟨_,
    { attachment := target
      resolve_target := none
      load_op := LoadOp.Clear
      store_op := StoreOp.Store
      clear_color := Color.BLACK },
    rfl, rfl, rfl, rfl, rfl, by simp [Renderer.render_pass], rfl⟩

/-- Witness for C6 at concrete inputs. -/
theorem render_pass_single_input_single_output_witness :
    ∃ recorded att,
      ((Renderer.render_pass sampleRenderer { calls := [] } 5).2).calls =
        [] ++ recorded ∧
      recorded.filter (fun c => match c with
          | ApiCall.begin_render_pass _ => true | _ => false) =
        [ApiCall.begin_render_pass
          { color_attachments := [att], depth_stencil_attachment := none }] ∧
      att.attachment = 5 ∧
      att.resolve_target = none ∧
      att.store_op = StoreOp.Store ∧
      ApiCall.set_bind_group 0 sampleRenderer.bind_group [] ∈ recorded ∧
      sampleRenderer.bind_group.desc.bindings.filter (fun b => b.binding == 0) =
        [{ binding := 0, resource := BindingResource.TextureView 0 }] :=
  render_pass_single_input_single_output [] [] 0 0 0 sampleRenderer sampleTrace
    rfl { calls := [] } 5

/-- C7: every `render_pass` call first begins the pass with load op
Clear and clear color black on the render target, before the draw is
recorded, so prior target contents never survive. -/
theorem render_pass_clears_target_to_black
    (r : Renderer) (enc : CommandEncoder) (target : TextureView) :
    ∃ att recorded,
      ((Renderer.render_pass r enc target).2).calls = enc.calls ++ recorded ∧
      recorded.head? = some (ApiCall.begin_render_pass
        { color_attachments := [att], depth_stencil_attachment := none }) ∧
      att.attachment = target ∧
      att.load_op = LoadOp.Clear ∧
      att.clear_color = Color.BLACK ∧
      ApiCall.draw 0 6 0 1 ∈ recorded := by
  exact ⟨{ attachment := target
           resolve_target := none
           load_op := LoadOp.Clear
           store_op := StoreOp.Store
           clear_color := Color.BLACK },
    _, rfl, rfl, rfl, rfl, rfl, by simp [Renderer.render_pass]⟩

/-- C8: `update_bindings` is a no-op on every renderer, so a renderer
built by `factory` keeps sampling the texture view captured at
construction, and `render_pass` behaves identically after the call. -/
theorem update_bindings_is_noop
    (v f : List Nat) (d : Device) (q : Queue) (tv : TextureView)
    (r : Renderer) (tr : List ApiCall)
    (h : Renderer.factory v f d q tv = some (r, tr)) (tv2 : TextureView) :
    (∀ (r0 : Renderer) (tvx : TextureView), Renderer.update_bindings r0 tvx = r0) ∧
    (Renderer.update_bindings r tv2).bind_group.desc.bindings.filter
        (fun b => b.binding == 0) =
      [{ binding := 0, resource := BindingResource.TextureView tv }] ∧
    ∀ enc target,
      Renderer.render_pass (Renderer.update_bindings r tv2) enc target =
        Renderer.render_pass r enc target := by
  obtain ⟨vert, frag, hv, hf, hr, htr⟩ := (factory_eq_some_iff v f d q tv r tr).mp h
  subst hr
  exact ⟨fun r0 tvx => rfl, rfl, fun enc target => rfl⟩

/-- Witness for C8 at concrete inputs. -/
theorem update_bindings_is_noop_witness :
    (∀ (r0 : Renderer) (tvx : TextureView), Renderer.update_bindings r0 tvx = r0) ∧
    (Renderer.update_bindings sampleRenderer 7).bind_group.desc.bindings.filter
        (fun b => b.binding == 0) =
      [{ binding := 0, resource := BindingResource.TextureView 0 }] ∧
    ∀ enc target,
      Renderer.render_pass (Renderer.update_bindings sampleRenderer 7) enc target =
        Renderer.render_pass sampleRenderer enc target :=
  update_bindings_is_noop [] [] 0 0 0 sampleRenderer sampleTrace rfl 7

/-- C9: `render_pass` mutates nothing in the renderer and is a pure
function of the renderer state and render target: the suffix of calls it
appends is the same fixed four-command sequence whatever the encoder
already holds. -/
theorem render_pass_deterministic_readonly
    (r : Renderer) (enc1 enc2 : CommandEncoder) (target : TextureView) :
    (Renderer.render_pass r enc1 target).1 = r ∧
    ((Renderer.render_pass r enc1 target).2).calls.drop enc1.calls.length =
      ((Renderer.render_pass r enc2 target).2).calls.drop enc2.calls.length ∧
    ((Renderer.render_pass r enc1 target).2).calls.drop enc1.calls.length =
      [ ApiCall.begin_render_pass
          { color_attachments :=
              [ { attachment := target
                  resolve_target := none
                  load_op := LoadOp.Clear
                  store_op := StoreOp.Store
                  clear_color := Color.BLACK } ]
            depth_stencil_attachment := none },
        ApiCall.set_pipeline r.render_pipeline,
        ApiCall.set_bind_group 0 r.bind_group [],
        ApiCall.draw 0 6 0 1 ] := by
  refine ⟨rfl, ?_, ?_⟩ <;> simp [Renderer.render_pass]
